import Mathlib

/-!
Verification development for the FinTech monitoring system
(services/analyzer/app.py and services/alert/app.py).

The Python services are shallowly embedded: floating point arithmetic is
modelled over ℚ, Postgres query results are passed in as explicit lists of
rows, timestamps are integers, and raised exceptions are modelled with
`Except`/`Option` values.  Decimal display formatting (Python's `:.2f`) is
abstracted by an exact rational renderer `qstr`; it never influences any
control flow in the source.
-/

namespace FinTech

/-- Discrete price-derived signal, values of `calculate_price_signals`. -/
inductive PriceSig
  | BUY
  | SELL
  | HOLD
deriving DecidableEq

/-- Discrete sentiment-derived signal, values of `aggregate_sentiment_signals`. -/
inductive SentSig
  | BULLISH
  | BEARISH
  | NEUTRAL
deriving DecidableEq

/-- Five-level final signal of `generate_composite_signal`. -/
inductive FinalSignal
  | STRONG_BUY
  | BUY
  | HOLD
  | SELL
  | STRONG_SELL
deriving DecidableEq

/-- One row of the `market_data` table (newest-first query result rows). -/
structure PriceObservation where
  symbol : String
  price : ℚ
  changePercent : ℚ
  volume : ℚ
  timestamp : ℤ
deriving DecidableEq

/-- One row of the `sentiment_analysis` table (joined with its article symbol). -/
structure SentimentRecord where
  article_id : ℕ
  symbol : String
  sentiment_score : ℚ
  confidence : ℚ
  analyzed_at : ℤ
deriving DecidableEq

/-- Exact rational rendering standing in for Python float formatting. -/
def qstr (q : ℚ) : String :=
  toString q.num ++ "/" ++ toString q.den

/-- Mean of a list of rationals, the embedding of SQL `AVG` and of
`sum/len`; `0` on the empty list (never consulted there by the code). -/
def avgOf (l : List ℚ) : ℚ :=
  l.sum / (l.length : ℚ)

/-- Result dictionary of `SignalAggregator.calculate_price_signals`.  The
keys `price_change`, `volume_change` and `current_price` are absent from the
insufficient-data dictionary in the source, hence `Option`. -/
structure PriceSignalResult where
  signal : PriceSig
  strength : ℚ
  reason : String
  price_change : Option ℚ
  volume_change : Option ℚ
  current_price : Option ℚ
deriving DecidableEq

/-- `SignalAggregator.calculate_price_signals`.  `data` is the result of the
newest-first `market_data` query; `none` models a failed query (`None`). -/
def calculate_price_signals (threshold : ℚ)
    (data : Option (List PriceObservation)) : PriceSignalResult :=
  match data with
  | none => ⟨.HOLD, 0, "Insufficient data", none, none, none⟩
  | some rows =>
    if rows.length < 2 then ⟨.HOLD, 0, "Insufficient data", none, none, none⟩
    else
      match rows with
      | latest :: previous :: _ =>
        let price_change := latest.changePercent
        let volume_change :=
          if previous.volume > 0 then
            (latest.volume - previous.volume) / previous.volume * 100
          else 0
        if |price_change| > threshold then
          if price_change > 0 then
            ⟨.BUY, min (|price_change| / 10) 1,
              "Strong upward movement: +" ++ qstr price_change ++ "%",
              some price_change, some volume_change, some latest.price⟩
          else
            ⟨.SELL, min (|price_change| / 10) 1,
              "Strong downward movement: " ++ qstr price_change ++ "%",
              some price_change, some volume_change, some latest.price⟩
        else
          ⟨.HOLD, 3/10, "Price stable at " ++ qstr price_change ++ "%",
            some price_change, some volume_change, some latest.price⟩
      | _ => ⟨.HOLD, 0, "Insufficient data", none, none, none⟩

/-- Result dictionary of `SignalAggregator.aggregate_sentiment_signals`. -/
structure SentimentAggResult where
  avg_sentiment : ℚ
  article_count : ℕ
  signal : SentSig
  confidence : ℚ
deriving DecidableEq

/-- Rows of `sentiment_analysis` for `symbol` with `analyzed_at` after the
cutoff, the embedding of the windowed `WHERE` clause. -/
def sentimentWindow (records : List SentimentRecord) (symbol : String)
    (cutoff : ℤ) : List SentimentRecord :=
  records.filter (fun r => r.symbol == symbol && decide (cutoff < r.analyzed_at))

/-- `SignalAggregator.aggregate_sentiment_signals`: mean score, article
count and mean confidence over the lookback window. -/
def aggregate_sentiment_signals (records : List SentimentRecord)
    (symbol : String) (cutoff : ℤ) : SentimentAggResult :=
  let rows := sentimentWindow records symbol cutoff
  if rows.length = 0 then
    ⟨0, 0, .NEUTRAL, 0⟩
  else
    let avg_sentiment := avgOf (rows.map (·.sentiment_score))
    let signal :=
      if avg_sentiment > 3/10 then SentSig.BULLISH
      else if avg_sentiment < -(3/10) then SentSig.BEARISH
      else SentSig.NEUTRAL
    ⟨avg_sentiment, rows.length, signal, avgOf (rows.map (·.confidence))⟩

/-- The `signal_map` dictionary restricted to price signals. -/
def signal_map_price : PriceSig → ℤ
  | .BUY => 1
  | .SELL => -1
  | .HOLD => 0

/-- The `signal_map` dictionary restricted to sentiment signals. -/
def signal_map_sent : SentSig → ℤ
  | .BULLISH => 1
  | .BEARISH => -1
  | .NEUTRAL => 0

/-- The final-signal threshold cascade inside
`SignalAggregator.generate_composite_signal`. -/
def final_signal_of (composite_score : ℚ) : FinalSignal :=
  if composite_score > 3/10 then .STRONG_BUY
  else if composite_score > 0 then .BUY
  else if composite_score < -(3/10) then .STRONG_SELL
  else if composite_score < 0 then .SELL
  else .HOLD

/-- Fusion core of `SignalAggregator.generate_composite_signal`, a function
of the two sub-engine results. -/
structure CompositeSignal where
  final_signal : FinalSignal
  composite_score : ℚ
deriving DecidableEq

/-- `SignalAggregator.generate_composite_signal` (fusion step; the two
sub-engine calls feed in as arguments). -/
def generate_composite_signal (price_signal : PriceSignalResult)
    (sentiment_signal : SentimentAggResult) : CompositeSignal :=
  let price_weight : ℚ := 6/10
  let sentiment_weight : ℚ := 4/10
  let price_score : ℚ :=
    (signal_map_price price_signal.signal : ℚ) * price_signal.strength
  let sentiment_score : ℚ :=
    (signal_map_sent sentiment_signal.signal : ℚ) * sentiment_signal.confidence
  let composite_score := price_score * price_weight + sentiment_score * sentiment_weight
  ⟨final_signal_of composite_score, composite_score⟩

/-- Modelled from the spec wording of the claim: the five threshold buckets
`composite > 0.3`, `0 < composite ≤ 0.3`, `composite = 0`,
`−0.3 ≤ composite < 0`, `composite < −0.3`. -/
def finalSignalSpec (composite : ℚ) : FinalSignal :=
  if composite > 3/10 then .STRONG_BUY
  else if 0 < composite ∧ composite ≤ 3/10 then .BUY
  else if composite = 0 then .HOLD
  else if -(3/10) ≤ composite ∧ composite < 0 then .SELL
  else .STRONG_SELL

/-- Alert severity class (`'HIGH'` / `'MEDIUM'` strings in the source). -/
inductive Severity
  | HIGH
  | MEDIUM
deriving DecidableEq

/-- Alert type tag (`'PRICE_ALERT'` / `'SENTIMENT_ALERT'` / `'SIGNAL_ALERT'`). -/
inductive AlertType
  | PRICE_ALERT
  | SENTIMENT_ALERT
  | SIGNAL_ALERT
deriving DecidableEq

/-- The per-type extra keys of an alert dictionary. -/
inductive AlertDetails
  | priceDetails (price change_percent : ℚ)
  | sentimentDetails (avg_sentiment : ℚ) (article_count : ℕ)
  | signalDetails (signal : FinalSignal) (composite_score : ℚ) (reason : String)
deriving DecidableEq

/-- An alert dictionary as built by `AlertConditionChecker`. -/
structure Alert where
  alert_type : AlertType
  symbol : String
  severity : Severity
  message : String
  details : AlertDetails
  timestamp : ℤ
deriving DecidableEq

/-- Loop body of `AlertConditionChecker.check_price_alerts`. -/
def mkPriceAlert (row : PriceObservation) : Alert where
  alert_type := .PRICE_ALERT
  symbol := row.symbol
  severity := .HIGH
  message := row.symbol ++ " "
    ++ (if row.changePercent > 0 then "increased" else "decreased")
    ++ " by " ++ qstr |row.changePercent| ++ "%"
  details := .priceDetails row.price row.changePercent
  timestamp := row.timestamp

/-- `AlertConditionChecker.check_price_alerts`.  `latest_prices` is the
`DISTINCT ON (symbol) … ORDER BY symbol, timestamp DESC` query result: the
latest observation of each symbol; a failed query (`None`) behaves as `[]`. -/
def check_price_alerts (threshold : ℚ)
    (latest_prices : List PriceObservation) : List Alert :=
  (latest_prices.filter (fun row => decide (|row.changePercent| > threshold))).map
    mkPriceAlert

/-- Loop body of `AlertConditionChecker.check_sentiment_alerts`. -/
def mkSentimentAlert (symbol : String) (avg_sentiment : ℚ)
    (article_count : ℕ) (now : ℤ) : Alert where
  alert_type := .SENTIMENT_ALERT
  symbol := symbol
  severity := .MEDIUM
  message := symbol ++ " has negative sentiment: " ++ qstr avg_sentiment
    ++ " across " ++ toString article_count ++ " articles"
  details := .sentimentDetails avg_sentiment article_count
  timestamp := now

/-- Rows of `sentiment_analysis` inside the trailing window
(`analyzed_at > NOW() - INTERVAL '6 hours'`, cutoff passed explicitly). -/
def recentSentiment (records : List SentimentRecord) (cutoff : ℤ) :
    List SentimentRecord :=
  records.filter (fun r => decide (cutoff < r.analyzed_at))

/-- Per-symbol group of the windowed rows (`GROUP BY symbol`). -/
def symbolGroup (records : List SentimentRecord) (cutoff : ℤ)
    (symbol : String) : List SentimentRecord :=
  (recentSentiment records cutoff).filter (fun r => r.symbol == symbol)

/-- `AlertConditionChecker.check_sentiment_alerts`: one MEDIUM alert per
symbol group whose mean score is below the threshold with at least three
articles. -/
def check_sentiment_alerts (threshold : ℚ) (records : List SentimentRecord)
    (cutoff now : ℤ) : List Alert :=
  (((recentSentiment records cutoff).map (·.symbol)).dedup).filterMap
    (fun symbol =>
      let rows := symbolGroup records cutoff symbol
      let avg_sentiment := avgOf (rows.map (·.sentiment_score))
      if avg_sentiment < threshold ∧ 3 ≤ rows.length then
        some (mkSentimentAlert symbol avg_sentiment rows.length now)
      else none)

/-- One row of the `trading_signals` table, as read by the signal scan. -/
structure TradingSignalRow where
  symbol : String
  signal : FinalSignal
  composite_score : ℚ
  reason : String
  timestamp : ℤ
deriving DecidableEq

/-- Render a final signal the way the `signal` column stores it. -/
def finalSignalName : FinalSignal → String
  | .STRONG_BUY => "STRONG_BUY"
  | .BUY => "BUY"
  | .HOLD => "HOLD"
  | .SELL => "SELL"
  | .STRONG_SELL => "STRONG_SELL"

/-- `AlertConditionChecker.check_trading_signals`: HIGH alert for each
symbol whose latest signal row is STRONG_BUY/STRONG_SELL and newer than the
one-hour cutoff. -/
def check_trading_signals (latest_signals : List TradingSignalRow)
    (cutoff : ℤ) : List Alert :=
  (latest_signals.filter (fun r =>
      (r.signal == .STRONG_BUY || r.signal == .STRONG_SELL)
        && decide (cutoff < r.timestamp))).map
    (fun r =>
      { alert_type := .SIGNAL_ALERT
        symbol := r.symbol
        severity := .HIGH
        message := r.symbol ++ ": " ++ finalSignalName r.signal
          ++ " signal detected (score: " ++ qstr r.composite_score ++ ")"
        details := .signalDetails r.signal r.composite_score r.reason
        timestamp := r.timestamp })

/-- Alerts contributed by one scan outcome: an erroring scan contributes
none. -/
def scanAlerts : Except String (List Alert) → List Alert
  | .ok l => l
  | .error _ => []

/-- One `try/except` block of `AlertConditionChecker.check_all_conditions`:
extend the accumulated alerts on success, log the error on failure. -/
def scanStep (acc : List Alert × List String) (scanName : String)
    (scan : Except String (List Alert)) : List Alert × List String :=
  match scan with
  | .ok l =>
    (acc.1 ++ l,
      acc.2 ++ ["Found " ++ toString l.length ++ " " ++ scanName ++ " alerts"])
  | .error e =>
    (acc.1, acc.2 ++ ["Error checking " ++ scanName ++ " alerts: " ++ e])

/-- `AlertConditionChecker.check_all_conditions`: the three scans in order,
each wrapped in its own `try/except`; returns the combined alert list and
the log lines. -/
def check_all_conditions (price_scan sentiment_scan signal_scan :
    Except String (List Alert)) : List Alert × List String :=
  scanStep (scanStep (scanStep ([], []) "price" price_scan)
    "sentiment" sentiment_scan) "signal" signal_scan

/-- A dispatched notification (one `send_email` / `send_sms` call). -/
inductive Notification
  | email (subject body : String)
  | sms (body : String)
deriving DecidableEq

/-- Python string slicing `s[:n]`. -/
def strTake (s : String) (n : ℕ) : String :=
  ⟨s.data.take n⟩

/-- The `"=" * 60` separator line. -/
def eqLine : String :=
  String.mk (List.replicate 60 '=')

/-- The `"-" * 60` separator line. -/
def dashLine : String :=
  String.mk (List.replicate 60 '-')

/-- The two lines `_format_email_body` appends for one alert: its message
and its timestamp. -/
def alertLine (a : Alert) : String :=
  "• " ++ a.message ++ "\n" ++ "  Time: " ++ toString a.timestamp ++ "\n\n"

/-- `AlertService._format_email_body`. -/
def format_email_body (high_alerts medium_alerts : List Alert) : String :=
  let body0 := "FinTech Monitoring System - Alert Report\n" ++ eqLine ++ "\n\n"
  let body1 :=
    if high_alerts.isEmpty then body0
    else body0 ++ "HIGH PRIORITY ALERTS:\n" ++ dashLine ++ "\n"
      ++ String.join (high_alerts.map alertLine)
  let body2 :=
    if medium_alerts.isEmpty then body1
    else body1 ++ "\nMEDIUM PRIORITY ALERTS:\n" ++ dashLine ++ "\n"
      ++ String.join (medium_alerts.map alertLine)
  body2 ++ "\n" ++ eqLine ++ "\n" ++ "View full details at your dashboard\n"

/-- The HIGH-severity sublist (`[a for a in alerts if severity == 'HIGH']`). -/
def highOf (alerts : List Alert) : List Alert :=
  alerts.filter (fun a => a.severity == .HIGH)

/-- The MEDIUM-severity sublist. -/
def mediumOf (alerts : List Alert) : List Alert :=
  alerts.filter (fun a => a.severity == .MEDIUM)

/-- Body of one SMS: `f"ALERT: {message}"[:160]`. -/
def smsBodyOf (a : Alert) : String :=
  strTake ("ALERT: " ++ a.message) 160

/-- `AlertService.send_notifications`: the list of notification attempts of
one cycle, given whether the email/SMS channels are configured. -/
def send_notifications (email_configured sms_configured : Bool)
    (alerts : List Alert) : List Notification :=
  if alerts.isEmpty then []
  else
    let high_alerts := highOf alerts
    let medium_alerts := mediumOf alerts
    (if email_configured then
      [Notification.email
        ("FinTech Alert: " ++ toString high_alerts.length ++ " High Priority Alerts")
        (format_email_body high_alerts medium_alerts)]
    else [])
    ++
    (if sms_configured && !high_alerts.isEmpty then
      (high_alerts.take 3).map (fun a => Notification.sms (smsBodyOf a))
    else [])

/-- Whether a notification is an SMS. -/
def isSms : Notification → Bool
  | .sms _ => true
  | .email _ _ => false

/-- Whether a notification is an email. -/
def isEmail : Notification → Bool
  | .email _ _ => true
  | .sms _ => false

/-- Bodies of the SMS notifications of a batch, in order. -/
def smsBodies (ns : List Notification) : List String :=
  ns.filterMap (fun n => match n with | .sms b => some b | .email _ _ => none)

/-- Bodies of the email notifications of a batch, in order. -/
def emailBodies (ns : List Notification) : List String :=
  ns.filterMap (fun n => match n with | .email _ b => some b | .sms _ => none)

/-- The positive word list of `GeminiAnalyzer._fallback_sentiment`. -/
def positive_words : List String :=
  ["gain", "profit", "up", "increase", "growth", "surge", "rally",
    "bullish", "positive"]

/-- The negative word list of `GeminiAnalyzer._fallback_sentiment`. -/
def negative_words : List String :=
  ["loss", "decline", "down", "decrease", "fall", "drop", "bearish",
    "negative"]

/-- Whether `pat` starts the character list `t`. -/
def startsWithChars : List Char → List Char → Bool
  | [], _ => true
  | _ :: _, [] => false
  | p :: ps, t :: ts => p == t && startsWithChars ps ts

/-- Whether `pat` occurs contiguously in `t` (Python `pat in t` on strings). -/
def occursChars (pat : List Char) : List Char → Bool
  | [] => pat.isEmpty
  | c :: ts => startsWithChars pat (c :: ts) || occursChars pat ts

/-- Python `word in text` substring containment. -/
def containsWord (text word : String) : Bool :=
  occursChars word.data text.data

/-- Python `str.lower()` (ASCII case folding suffices for the word lists). -/
def strToLower (s : String) : String :=
  ⟨s.data.map Char.toLower⟩

/-- `sum(1 for word in positive_words if word in text_lower)`. -/
def pos_count (text : String) : ℕ :=
  (positive_words.filter (containsWord (strToLower text))).length

/-- `sum(1 for word in negative_words if word in text_lower)`. -/
def neg_count (text : String) : ℕ :=
  (negative_words.filter (containsWord (strToLower text))).length

/-- The sentiment record dictionary produced by the analyzer. -/
structure SentimentOutput where
  sentiment_score : ℚ
  sentiment_label : String
  confidence : ℚ
  key_points : List String
  market_impact : String
  summary : String
deriving DecidableEq

/-- `GeminiAnalyzer._fallback_sentiment`: keyword-count heuristic. -/
def fallback_sentiment (text : String) : SentimentOutput :=
  let p := pos_count text
  let n := neg_count text
  let total := p + n
  if total = 0 then
    ⟨0, "neutral", 1/2, ["Fallback analysis used"], "neutral",
      "Basic sentiment analysis performed"⟩
  else
    let score : ℚ := ((p : ℚ) - (n : ℚ)) / ((total : ℕ) : ℚ)
    let label :=
      if score > 1/5 then "positive"
      else if score < -(1/5) then "negative"
      else "neutral"
    ⟨score, label, 1/2, ["Fallback analysis used"], "neutral",
      "Basic sentiment analysis performed"⟩

/-- `GeminiAnalyzer.analyze_sentiment`: the Gemini capability is `none`
when unconfigured, and a call outcome (`Except`: parsed record or any
raised error) when present; absence and failure both fall back. -/
def analyze_sentiment (model : Option (String → Except String SentimentOutput))
    (text : String) : SentimentOutput :=
  match model with
  | none => fallback_sentiment text
  | some generate_content =>
    match generate_content text with
    | .ok result => result
    | .error _ => fallback_sentiment text

/-! Concrete fixtures used by witness theorems. -/

/-- A latest observation moving up 6%. -/
def obsUp : PriceObservation := ⟨"AAPL", 10, 6, 100, 5⟩

/-- The preceding observation. -/
def obsPrev : PriceObservation := ⟨"AAPL", 9, 1, 90, 4⟩

/-- A latest observation moving down 6%. -/
def obsDown : PriceObservation := ⟨"MSFT", 20, -6, 100, 5⟩

/-- A latest observation inside the threshold. -/
def obsFlat : PriceObservation := ⟨"GOOG", 30, 2, 100, 5⟩

/-- A HIGH-severity alert. -/
def highAlertFx : Alert :=
  ⟨.PRICE_ALERT, "AAPL", .HIGH, "AAPL increased by 6/1%", .priceDetails 10 6, 5⟩

/-- A MEDIUM-severity alert. -/
def medAlertFx : Alert :=
  ⟨.SENTIMENT_ALERT, "AAPL", .MEDIUM, "AAPL has negative sentiment",
    .sentimentDetails (-(1/2)) 3, 5⟩

/-- Ten HIGH alerts. -/
def tenHigh : List Alert := List.replicate 10 highAlertFx

/-- A below-threshold sentiment record for AAPL inside the window. -/
def sentRecFx (article_id : ℕ) : SentimentRecord :=
  ⟨article_id, "AAPL", -(1/2), 1/2, 10⟩

/-- Two qualifying below-threshold records. -/
def sentTwo : List SentimentRecord := [sentRecFx 1, sentRecFx 2]

/-- Three qualifying below-threshold records. -/
def sentThree : List SentimentRecord := [sentRecFx 1, sentRecFx 2, sentRecFx 3]

/-! The theorems. -/

/-- The threshold cascade of the source equals the spec's bucket map. -/
theorem final_signal_of_eq_spec (c : ℚ) : final_signal_of c = finalSignalSpec c := by
  unfold final_signal_of finalSignalSpec
  by_cases h1 : c > 3/10
  · rw [if_pos h1, if_pos h1]
  · rw [if_neg h1, if_neg h1]
    by_cases h2 : c > 0
    · have hb : 0 < c ∧ c ≤ 3/10 := ⟨h2, le_of_not_lt h1⟩
      rw [if_pos h2, if_pos hb]
    · rw [if_neg h2, if_neg (fun h : 0 < c ∧ c ≤ 3/10 => h2 h.1)]
      by_cases h3 : c < -(3/10)
      · have hc0 : ¬c = 0 := by intro h; rw [h] at h3; norm_num at h3
        have h4 : ¬(-(3/10) ≤ c ∧ c < 0) := fun h => absurd h3 (not_lt.mpr h.1)
        rw [if_pos h3, if_neg hc0, if_neg h4]
      · rw [if_neg h3]
        by_cases h4 : c < 0
        · have hs : -(3/10) ≤ c ∧ c < 0 := ⟨le_of_not_lt h3, h4⟩
          rw [if_pos h4, if_neg (ne_of_lt h4), if_pos hs]
        · have hc0 : c = 0 := le_antisymm (le_of_not_lt h2) (le_of_not_lt h4)
          rw [if_neg h4, if_pos hc0]

/-- Claim C1: the fusion is a pure deterministic function of the two input
signals: the composite score is `0.6·(polarity(price)·strength) +
0.4·(polarity(sentiment)·confidence)`, the final signal follows the spec's
five threshold buckets, and price=BUY/strength 1 with
sentiment=BULLISH/confidence 1 yields composite 1.0 and STRONG_BUY. -/
theorem c1_signal_fusion (price_signal : PriceSignalResult)
    (sentiment_signal : SentimentAggResult) :
    (generate_composite_signal price_signal sentiment_signal).composite_score
      = (6/10) * ((signal_map_price price_signal.signal : ℚ) * price_signal.strength)
        + (4/10) * ((signal_map_sent sentiment_signal.signal : ℚ)
            * sentiment_signal.confidence)
    ∧ (generate_composite_signal price_signal sentiment_signal).final_signal
      = finalSignalSpec
          (generate_composite_signal price_signal sentiment_signal).composite_score
    ∧ generate_composite_signal ⟨.BUY, 1, "", none, none, none⟩ ⟨0, 0, .BULLISH, 1⟩
      = ⟨.STRONG_BUY, 1⟩ := by
  refine ⟨?_, ?_, ?_⟩
  · show _ * (6/10) + _ * (4/10) = _
    ring
  · exact final_signal_of_eq_spec _
  · norm_num [generate_composite_signal, signal_map_price, signal_map_sent,
      final_signal_of]

/-- Claim C2: with fewer than two observations (or a failed query) the price
signal is HOLD with strength 0; otherwise, for latest change `d`, if
`|d| > threshold` the signal is BUY when `d > 0` and SELL when `d < 0` with
strength `min(|d|/10, 1)` (so 1 once `|d| ≥ 10`), else HOLD with
strength 0.3. -/
theorem c2_price_signal (threshold : ℚ) :
    calculate_price_signals threshold none
        = ⟨.HOLD, 0, "Insufficient data", none, none, none⟩
    ∧ (∀ rows : List PriceObservation, rows.length < 2 →
        calculate_price_signals threshold (some rows)
          = ⟨.HOLD, 0, "Insufficient data", none, none, none⟩)
    ∧ (∀ (latest previous : PriceObservation) (rest : List PriceObservation),
        (|latest.changePercent| > threshold →
          (0 < latest.changePercent →
            (calculate_price_signals threshold
              (some (latest :: previous :: rest))).signal = .BUY)
          ∧ (latest.changePercent < 0 →
            (calculate_price_signals threshold
              (some (latest :: previous :: rest))).signal = .SELL)
          ∧ (calculate_price_signals threshold
              (some (latest :: previous :: rest))).strength
              = min (|latest.changePercent| / 10) 1
          ∧ (10 ≤ |latest.changePercent| →
            (calculate_price_signals threshold
              (some (latest :: previous :: rest))).strength = 1))
        ∧ (¬(|latest.changePercent| > threshold) →
          (calculate_price_signals threshold
            (some (latest :: previous :: rest))).signal = .HOLD
          ∧ (calculate_price_signals threshold
            (some (latest :: previous :: rest))).strength = 3/10)) := by
  refine ⟨rfl, ?_, ?_⟩
  · intro rows h
    simp only [calculate_price_signals]
    rw [if_pos h]
  · intro latest previous rest
    have hlen : ¬((latest :: previous :: rest).length < 2) := by
      simp [List.length_cons]
    constructor
    · intro hthr
      by_cases hpos : latest.changePercent > 0
      · refine ⟨fun _ => ?_, fun hneg => absurd hpos (not_lt.mpr hneg.le), ?_, ?_⟩
        · simp only [calculate_price_signals]
          rw [if_neg hlen, if_pos hthr, if_pos hpos]
        · simp only [calculate_price_signals]
          rw [if_neg hlen, if_pos hthr, if_pos hpos]
        · intro hten
          simp only [calculate_price_signals]
          rw [if_neg hlen, if_pos hthr, if_pos hpos]
          show min (|latest.changePercent| / 10) 1 = 1
          rw [min_eq_right]
          linarith
      · refine ⟨fun h => absurd h hpos, fun _ => ?_, ?_, ?_⟩
        · simp only [calculate_price_signals]
          rw [if_neg hlen, if_pos hthr, if_neg hpos]
        · simp only [calculate_price_signals]
          rw [if_neg hlen, if_pos hthr, if_neg hpos]
        · intro hten
          simp only [calculate_price_signals]
          rw [if_neg hlen, if_pos hthr, if_neg hpos]
          show min (|latest.changePercent| / 10) 1 = 1
          rw [min_eq_right]
          linarith
    · intro hthr
      constructor <;>
        · simp only [calculate_price_signals]
          rw [if_neg hlen, if_neg hthr]

/-- Witness for C2 at a concrete window: change `+6%` against threshold 5
yields a BUY with strength `min(6/10, 1)`. -/
theorem c2_price_signal_witness :
    |obsUp.changePercent| > 5
    ∧ (calculate_price_signals 5 (some [obsUp, obsPrev])).signal = .BUY
    ∧ (calculate_price_signals 5 (some [obsUp, obsPrev])).strength
        = min (|obsUp.changePercent| / 10) 1 := by
  have h := ((c2_price_signal 5).2.2 obsUp obsPrev []).1 (by norm_num [obsUp])
  exact ⟨by norm_num [obsUp], h.1 (by norm_num [obsUp]), h.2.2.1⟩

/-- Claim C6: the sentiment aggregator returns NEUTRAL with confidence 0 and
count 0 on an empty window, and otherwise classifies the mean score as
BULLISH above 0.3, BEARISH below −0.3, NEUTRAL in between, with confidence
the mean of the per-record confidences. -/
theorem c6_sentiment_aggregation (records : List SentimentRecord)
    (symbol : String) (cutoff : ℤ) :
    (sentimentWindow records symbol cutoff = [] →
      aggregate_sentiment_signals records symbol cutoff = ⟨0, 0, .NEUTRAL, 0⟩)
    ∧ (sentimentWindow records symbol cutoff ≠ [] →
      (aggregate_sentiment_signals records symbol cutoff).article_count
          = (sentimentWindow records symbol cutoff).length
      ∧ (aggregate_sentiment_signals records symbol cutoff).confidence
          = avgOf ((sentimentWindow records symbol cutoff).map (·.confidence))
      ∧ ((aggregate_sentiment_signals records symbol cutoff).signal = .BULLISH
          ↔ avgOf ((sentimentWindow records symbol cutoff).map (·.sentiment_score))
              > 3/10)
      ∧ ((aggregate_sentiment_signals records symbol cutoff).signal = .BEARISH
          ↔ avgOf ((sentimentWindow records symbol cutoff).map (·.sentiment_score))
              < -(3/10))
      ∧ ((aggregate_sentiment_signals records symbol cutoff).signal = .NEUTRAL
          ↔ -(3/10) ≤ avgOf ((sentimentWindow records symbol cutoff).map
                (·.sentiment_score))
            ∧ avgOf ((sentimentWindow records symbol cutoff).map
                (·.sentiment_score)) ≤ 3/10)) := by
  constructor
  · intro h
    simp [aggregate_sentiment_signals, h]
  · intro hne
    have hlen : ¬((sentimentWindow records symbol cutoff).length = 0) := by
      simpa [List.length_eq_zero] using hne
    have key : aggregate_sentiment_signals records symbol cutoff
        = ⟨avgOf ((sentimentWindow records symbol cutoff).map (·.sentiment_score)),
            (sentimentWindow records symbol cutoff).length,
            (if avgOf ((sentimentWindow records symbol cutoff).map
                  (·.sentiment_score)) > 3/10 then .BULLISH
              else if avgOf ((sentimentWindow records symbol cutoff).map
                  (·.sentiment_score)) < -(3/10) then .BEARISH
              else .NEUTRAL),
            avgOf ((sentimentWindow records symbol cutoff).map (·.confidence))⟩ := by
      simp only [aggregate_sentiment_signals]
      rw [if_neg hlen]
    rw [key]
    set m := avgOf ((sentimentWindow records symbol cutoff).map (·.sentiment_score))
      with hm
    refine ⟨rfl, rfl, ?_, ?_, ?_⟩
    · by_cases h1 : m > 3/10
      · simp [h1]
      · by_cases h2 : m < -(3/10) <;> simp [h1, h2]
    · by_cases h1 : m > 3/10
      · simp [h1]
        linarith
      · by_cases h2 : m < -(3/10) <;> simp [h1, h2]
    · by_cases h1 : m > 3/10
      · simp only [if_pos h1]
        constructor
        · intro h
          exact absurd h (by simp)
        · intro h
          exact absurd h1 (not_lt.mpr h.2)
      · by_cases h2 : m < -(3/10)
        · simp only [if_neg h1, if_pos h2]
          constructor
          · intro h
            exact absurd h (by simp)
          · intro h
            exact absurd h2 (not_lt.mpr h.1)
        · simp only [if_neg h1, if_neg h2]
          exact ⟨fun _ => ⟨le_of_not_lt h2, le_of_not_lt h1⟩, fun _ => trivial⟩

/-- Witness for C6: three below-threshold records aggregate to BEARISH, and
the empty record set aggregates to NEUTRAL with zero count and confidence. -/
theorem c6_sentiment_aggregation_witness :
    sentimentWindow sentThree "AAPL" 0 ≠ []
    ∧ (aggregate_sentiment_signals sentThree "AAPL" 0).signal = .BEARISH
    ∧ aggregate_sentiment_signals [] "AAPL" 0 = ⟨0, 0, .NEUTRAL, 0⟩ := by
  have hne : sentimentWindow sentThree "AAPL" 0 ≠ [] := by decide
  have hm : avgOf ((sentimentWindow sentThree "AAPL" 0).map (·.sentiment_score))
      < -(3/10) := by
    norm_num [avgOf, sentThree, sentRecFx, sentimentWindow]
  refine ⟨hne, ?_, ?_⟩
  · exact (((c6_sentiment_aggregation sentThree "AAPL" 0).2 hne).2.2.2.1).mpr hm
  · exact (c6_sentiment_aggregation [] "AAPL" 0).1 rfl

/-- Claim C7: when the sentiment capability is absent or fails, analysis
falls back (never raising) to the keyword heuristic, which returns score 0,
label neutral, confidence 0.5 when no polarity word occurs, and score
`(pos−neg)/(pos+neg)` otherwise. -/
theorem c7_fallback_never_raises
    (model : Option (String → Except String SentimentOutput)) (text : String)
    (h : model = none ∨ ∃ f e, model = some f ∧ f text = .error e) :
    analyze_sentiment model text = fallback_sentiment text
    ∧ (pos_count text + neg_count text = 0 →
        (fallback_sentiment text).sentiment_score = 0
        ∧ (fallback_sentiment text).sentiment_label = "neutral"
        ∧ (fallback_sentiment text).confidence = 1/2)
    ∧ (pos_count text + neg_count text ≠ 0 →
        (fallback_sentiment text).sentiment_score
          = ((pos_count text : ℚ) - (neg_count text : ℚ))
            / ((pos_count text : ℚ) + (neg_count text : ℚ))) := by
  refine ⟨?_, ?_, ?_⟩
  · rcases h with h | ⟨f, e, hf, he⟩
    · rw [h]
      rfl
    · rw [hf]
      simp only [analyze_sentiment]
      rw [he]
  · intro h0
    simp [fallback_sentiment, h0]
  · intro h0
    simp only [fallback_sentiment]
    rw [if_neg h0]
    show ((pos_count text : ℚ) - (neg_count text : ℚ))
        / ((pos_count text + neg_count text : ℕ) : ℚ) = _
    push_cast
    ring

/-- Witness for C7: with no capability, and with a failing capability, the
text "zzz" (no polarity words) yields the neutral fallback record. -/
theorem c7_fallback_never_raises_witness :
    analyze_sentiment none "zzz" = fallback_sentiment "zzz"
    ∧ analyze_sentiment (some (fun _ => .error "boom")) "zzz"
        = fallback_sentiment "zzz"
    ∧ (fallback_sentiment "zzz").sentiment_score = 0
    ∧ (fallback_sentiment "zzz").sentiment_label = "neutral"
    ∧ (fallback_sentiment "zzz").confidence = 1/2 := by
  have h1 := c7_fallback_never_raises none "zzz" (Or.inl rfl)
  have h2 := c7_fallback_never_raises (some (fun _ => Except.error "boom")) "zzz"
    (Or.inr ⟨_, "boom", rfl, rfl⟩)
  have h0 : pos_count "zzz" + neg_count "zzz" = 0 := by decide
  exact ⟨h1.1, h2.1, (h1.2.1 h0).1, (h1.2.1 h0).2.1, (h1.2.1 h0).2.2⟩

/-- Claim C8: the combined condition check isolates per-scan failures — it
always returns the concatenation of the succeeding scans' alerts, and an
erroring scan only adds a log line while the other scans' alerts are kept. -/
theorem c8_fault_isolation (price_scan sentiment_scan signal_scan :
    Except String (List Alert)) :
    (check_all_conditions price_scan sentiment_scan signal_scan).1
      = scanAlerts price_scan ++ scanAlerts sentiment_scan ++ scanAlerts signal_scan
    ∧ (∀ e, price_scan = .error e →
        (check_all_conditions price_scan sentiment_scan signal_scan).1
          = scanAlerts sentiment_scan ++ scanAlerts signal_scan
        ∧ ("Error checking price alerts: " ++ e)
            ∈ (check_all_conditions price_scan sentiment_scan signal_scan).2)
    ∧ (∀ e, sentiment_scan = .error e →
        (check_all_conditions price_scan sentiment_scan signal_scan).1
          = scanAlerts price_scan ++ scanAlerts signal_scan
        ∧ ("Error checking sentiment alerts: " ++ e)
            ∈ (check_all_conditions price_scan sentiment_scan signal_scan).2)
    ∧ (∀ e, signal_scan = .error e →
        (check_all_conditions price_scan sentiment_scan signal_scan).1
          = scanAlerts price_scan ++ scanAlerts sentiment_scan
        ∧ ("Error checking signal alerts: " ++ e)
            ∈ (check_all_conditions price_scan sentiment_scan signal_scan).2) := by
  rcases price_scan with p | p <;> rcases sentiment_scan with s | s <;>
    rcases signal_scan with g | g <;>
      simp [check_all_conditions, scanStep, scanAlerts]

/-- Witness for C8: a failed price scan still yields the other scans'
alerts, with the failure logged. -/
theorem c8_fault_isolation_witness :
    (check_all_conditions (.error "db down") (.ok [highAlertFx]) (.ok [])).1
        = [highAlertFx]
    ∧ ("Error checking price alerts: " ++ "db down")
        ∈ (check_all_conditions (.error "db down") (.ok [highAlertFx]) (.ok [])).2 := by
  have h := (c8_fault_isolation (.error "db down") (.ok [highAlertFx])
    (.ok [])).2.1 "db down" rfl
  exact ⟨by simpa [scanAlerts] using h.1, h.2⟩

/-- `smsBodies` distributes over concatenation. -/
theorem smsBodies_append (x y : List Notification) :
    smsBodies (x ++ y) = smsBodies x ++ smsBodies y := by
  simp [smsBodies, List.filterMap_append]

/-- The email part of a dispatch contributes no SMS body. -/
theorem smsBodies_emailPart (b : Bool) (s bo : String) :
    smsBodies (if b then [Notification.email s bo] else []) = [] := by
  cases b <;> rfl

/-- Extracting SMS bodies from a pure-SMS batch recovers the bodies. -/
theorem smsBodies_map_sms (l : List Alert) :
    smsBodies (l.map (fun a => Notification.sms (smsBodyOf a)))
      = l.map smsBodyOf := by
  induction l with
  | nil => rfl
  | cons a t ih =>
    simp only [List.map_cons, smsBodies, List.filterMap_cons] at ih ⊢
    rw [ih]

/-- SMS attempts of a dispatch with the SMS channel configured: the first
three HIGH alerts, truncated. -/
theorem smsBodies_send (email_configured : Bool) (alerts : List Alert) :
    smsBodies (send_notifications email_configured true alerts)
      = ((highOf alerts).take 3).map smsBodyOf := by
  by_cases hemp : alerts.isEmpty
  · have h : alerts = [] := List.isEmpty_iff.mp hemp
    subst h
    simp [send_notifications, smsBodies, highOf]
  · by_cases hh : (highOf alerts).isEmpty
    · have h : highOf alerts = [] := List.isEmpty_iff.mp hh
      simp only [send_notifications, if_neg hemp, h]
      cases email_configured <;> rfl
    · have hf : (highOf alerts).isEmpty = false := by
        cases h' : (highOf alerts).isEmpty
        · rfl
        · exact absurd h' hh
      have hcond : (true && !(highOf alerts).isEmpty) = true := by
        rw [hf]
        rfl
      simp only [send_notifications, if_neg hemp]
      rw [if_pos hcond, smsBodies_append, smsBodies_emailPart,
        List.nil_append, smsBodies_map_sms]

/-- With no SMS channel there are no SMS attempts. -/
theorem smsBodies_send_false (email_configured : Bool) (alerts : List Alert) :
    smsBodies (send_notifications email_configured false alerts) = [] := by
  by_cases hemp : alerts.isEmpty
  · have h : alerts = [] := List.isEmpty_iff.mp hemp
    subst h
    simp [send_notifications, smsBodies]
  · cases email_configured <;>
      simp [send_notifications, hemp, smsBodies, List.filterMap_append]

/-- Python slicing `s[:n]` yields at most `n` characters. -/
theorem strTake_length_le (s : String) (n : ℕ) : (strTake s n).length ≤ n := by
  show (s.data.take n).length ≤ n
  exact List.length_take_le n s.data

/-- Claim C3: per batch at most 3 SMS attempts (exactly 3 once 10 HIGH
alerts exist and the channel is configured), every SMS body is at most 160
characters, and every SMS stems from a HIGH-severity alert. -/
theorem c3_sms_cap (email_configured sms_configured : Bool)
    (alerts : List Alert) :
    (smsBodies (send_notifications email_configured sms_configured alerts)).length
        ≤ 3
    ∧ (∀ b ∈ smsBodies (send_notifications email_configured sms_configured alerts),
        b.length ≤ 160)
    ∧ (∀ b ∈ smsBodies (send_notifications email_configured sms_configured alerts),
        ∃ a ∈ alerts, a.severity = .HIGH ∧ b = smsBodyOf a)
    ∧ (sms_configured = true → (highOf alerts).length = 10 →
        (smsBodies (send_notifications email_configured sms_configured
          alerts)).length = 3) := by
  cases sms_configured
  · simp [smsBodies_send_false]
  · rw [smsBodies_send]
    refine ⟨?_, ?_, ?_, ?_⟩
    · rw [List.length_map]
      exact List.length_take_le 3 _
    · intro b hb
      obtain ⟨a, _, rfl⟩ := List.mem_map.mp hb
      exact strTake_length_le _ 160
    · intro b hb
      obtain ⟨a, ha, rfl⟩ := List.mem_map.mp hb
      have ha' := List.mem_filter.mp (List.mem_of_mem_take ha)
      refine ⟨a, ha'.1, ?_, rfl⟩
      simpa using ha'.2
    · intro _ h10
      rw [List.length_map, List.length_take, h10]
      omega

/-- Witness for C3: ten HIGH alerts with both channels configured yield
exactly three SMS attempts. -/
theorem c3_sms_cap_witness :
    (highOf tenHigh).length = 10
    ∧ (smsBodies (send_notifications true true tenHigh)).length = 3 := by
  have h10 : (highOf tenHigh).length = 10 := by decide
  exact ⟨h10, (c3_sms_cap true true tenHigh).2.2.2 rfl h10⟩

/-- `String.join` of no lines is the empty string. -/
theorem string_join_nil : String.join [] = "" := rfl

/-- `emailBodies` distributes over concatenation. -/
theorem emailBodies_append (x y : List Notification) :
    emailBodies (x ++ y) = emailBodies x ++ emailBodies y := by
  simp [emailBodies, List.filterMap_append]

/-- A pure-SMS batch contributes no email body. -/
theorem emailBodies_map_sms (l : List Alert) :
    emailBodies (l.map (fun a => Notification.sms (smsBodyOf a))) = [] := by
  induction l with
  | nil => rfl
  | cons a t ih =>
    simp only [List.map_cons, emailBodies, List.filterMap_cons] at ih ⊢
    rw [ih]

/-- The SMS part of a dispatch contributes no email body. -/
theorem emailBodies_smsPart (c : Bool) (alerts : List Alert) :
    emailBodies (if c then
        ((highOf alerts).take 3).map (fun a => Notification.sms (smsBodyOf a))
      else []) = [] := by
  cases c
  · rfl
  · simp only [if_pos rfl]
    exact emailBodies_map_sms _

/-- The SMS part of a dispatch contains no email notification. -/
theorem countP_isEmail_smsPart (c : Bool) (alerts : List Alert) :
    (if c then
        ((highOf alerts).take 3).map (fun a => Notification.sms (smsBodyOf a))
      else []).countP isEmail = 0 := by
  cases c
  · rfl
  · simp only [if_pos rfl]
    rw [List.countP_eq_zero]
    intro x hx
    obtain ⟨a, _, rfl⟩ := List.mem_map.mp hx
    simp [isEmail]

/-- The email body of `_format_email_body` decomposes as a header, all the
HIGH alert entries in order, a medium-section header, all the MEDIUM alert
entries in order, and a footer. -/
theorem format_email_body_decomp (high_alerts medium_alerts : List Alert) :
    ∃ pre mid post : String,
      format_email_body high_alerts medium_alerts
        = pre ++ String.join (high_alerts.map alertLine)
          ++ mid ++ String.join (medium_alerts.map alertLine) ++ post := by
  by_cases hh : high_alerts.isEmpty
  · have h : high_alerts = [] := List.isEmpty_iff.mp hh
    subst h
    by_cases hm : medium_alerts.isEmpty
    · have h2 : medium_alerts = [] := List.isEmpty_iff.mp hm
      subst h2
      refine ⟨"FinTech Monitoring System - Alert Report\n" ++ eqLine ++ "\n\n", "",
        "\n" ++ eqLine ++ "\n" ++ "View full details at your dashboard\n", ?_⟩
      simp only [format_email_body, if_pos hh, List.map_nil, string_join_nil,
        String.append_empty, String.empty_append, String.append_assoc]
    · refine ⟨"FinTech Monitoring System - Alert Report\n" ++ eqLine ++ "\n\n",
        "\nMEDIUM PRIORITY ALERTS:\n" ++ dashLine ++ "\n",
        "\n" ++ eqLine ++ "\n" ++ "View full details at your dashboard\n", ?_⟩
      simp only [format_email_body, if_pos hh, if_neg hm, List.map_nil,
        string_join_nil, String.append_empty, String.empty_append,
        String.append_assoc]
  · by_cases hm : medium_alerts.isEmpty
    · have h2 : medium_alerts = [] := List.isEmpty_iff.mp hm
      subst h2
      refine ⟨"FinTech Monitoring System - Alert Report\n" ++ eqLine ++ "\n\n"
          ++ "HIGH PRIORITY ALERTS:\n" ++ dashLine ++ "\n", "",
        "\n" ++ eqLine ++ "\n" ++ "View full details at your dashboard\n", ?_⟩
      simp only [format_email_body, if_pos hm, if_neg hh, List.map_nil,
        string_join_nil, String.append_empty, String.empty_append,
        String.append_assoc]
    · refine ⟨"FinTech Monitoring System - Alert Report\n" ++ eqLine ++ "\n\n"
          ++ "HIGH PRIORITY ALERTS:\n" ++ dashLine ++ "\n",
        "\nMEDIUM PRIORITY ALERTS:\n" ++ dashLine ++ "\n",
        "\n" ++ eqLine ++ "\n" ++ "View full details at your dashboard\n", ?_⟩
      simp only [format_email_body, if_neg hh, if_neg hm, String.append_assoc]

/-- Claim C9 as stated is false at the empty batch: with the email channel
configured but no alert found in the cycle, no summary email is sent at
all, rather than exactly one. -/
theorem c9_counterexample :
    ¬((send_notifications true true []).countP isEmail = 1) := by
  decide

/-- Claim C9, amended: in every cycle whose alert batch is nonempty, with
the email channel configured, exactly one summary email is sent, and its
body lists all HIGH alerts followed by all MEDIUM alerts, each entry
carrying the alert's message and timestamp (`alertLine`). -/
theorem c9_email_summary (sms_configured : Bool) (alerts : List Alert)
    (h : alerts ≠ []) :
    (send_notifications true sms_configured alerts).countP isEmail = 1
    ∧ emailBodies (send_notifications true sms_configured alerts)
        = [format_email_body (highOf alerts) (mediumOf alerts)]
    ∧ ∃ pre mid post : String,
        format_email_body (highOf alerts) (mediumOf alerts)
          = pre ++ String.join ((highOf alerts).map alertLine)
            ++ mid ++ String.join ((mediumOf alerts).map alertLine) ++ post := by
  have hemp : ¬(alerts.isEmpty = true) := by
    simpa [List.isEmpty_iff] using h
  refine ⟨?_, ?_, format_email_body_decomp _ _⟩
  · simp only [send_notifications, if_neg hemp, if_pos rfl]
    rw [List.countP_append, countP_isEmail_smsPart]
    simp [isEmail, List.countP_cons]
  · simp only [send_notifications, if_neg hemp, if_pos rfl]
    rw [emailBodies_append, emailBodies_smsPart]
    rfl

/-- Witness for C9 (amended): a two-alert batch produces exactly one email
whose body is the formatted summary. -/
theorem c9_email_summary_witness :
    ([highAlertFx, medAlertFx] : List Alert) ≠ []
    ∧ (send_notifications true true [highAlertFx, medAlertFx]).countP isEmail = 1
    ∧ emailBodies (send_notifications true true [highAlertFx, medAlertFx])
        = [format_email_body (highOf [highAlertFx, medAlertFx])
            (mediumOf [highAlertFx, medAlertFx])] := by
  have hne : ([highAlertFx, medAlertFx] : List Alert) ≠ [] := by simp
  have h := c9_email_summary true [highAlertFx, medAlertFx] hne
  exact ⟨hne, h.1, h.2.1⟩

/-- Claim C10: the combined batch is the price, sentiment and signal scan
alerts in that order; HIGH filtering preserves that order, so the SMS cap
takes the first three HIGH alerts in scan order, and with at least three
HIGH price alerts only price alerts are texted. -/
theorem c10_scan_order (p s g : List Alert) :
    (check_all_conditions (.ok p) (.ok s) (.ok g)).1 = p ++ s ++ g
    ∧ highOf (p ++ s ++ g) = highOf p ++ highOf s ++ highOf g
    ∧ (∀ email_configured : Bool,
        smsBodies (send_notifications email_configured true (p ++ s ++ g))
          = ((highOf p ++ highOf s ++ highOf g).take 3).map smsBodyOf)
    ∧ (3 ≤ (highOf p).length → ∀ email_configured : Bool,
        smsBodies (send_notifications email_configured true (p ++ s ++ g))
          = ((highOf p).take 3).map smsBodyOf) := by
  have hfil : highOf (p ++ s ++ g) = highOf p ++ highOf s ++ highOf g := by
    simp [highOf, List.filter_append]
  refine ⟨by simp [check_all_conditions, scanStep], hfil, ?_, ?_⟩
  · intro e
    rw [smsBodies_send, hfil]
  · intro h3 e
    rw [smsBodies_send, hfil, List.append_assoc,
      List.take_append_of_le_length h3]

/-- Witness for C10: four HIGH price alerts with a HIGH signal alert behind
them — only price alerts get texted. -/
theorem c10_scan_order_witness :
    3 ≤ (highOf [highAlertFx, highAlertFx, highAlertFx, highAlertFx]).length
    ∧ smsBodies (send_notifications true true
        ([highAlertFx, highAlertFx, highAlertFx, highAlertFx] ++ [medAlertFx]
          ++ [highAlertFx]))
      = ((highOf [highAlertFx, highAlertFx, highAlertFx, highAlertFx]).take 3).map
          smsBodyOf := by
  have h3 : 3 ≤ (highOf [highAlertFx, highAlertFx, highAlertFx,
      highAlertFx]).length := by decide
  exact ⟨h3,
    (c10_scan_order [highAlertFx, highAlertFx, highAlertFx, highAlertFx]
      [medAlertFx] [highAlertFx]).2.2.2 h3 true⟩

/-- Claim C4: the sentiment scan fires for a symbol exactly when at least 3
windowed records exist for it with mean score below the threshold, and
every emitted sentiment alert is a MEDIUM SENTIMENT_ALERT. -/
theorem c4_sentiment_scan (threshold : ℚ) (records : List SentimentRecord)
    (cutoff now : ℤ) (symbol : String) :
    ((∃ a ∈ check_sentiment_alerts threshold records cutoff now,
        a.symbol = symbol)
      ↔ 3 ≤ (symbolGroup records cutoff symbol).length
        ∧ avgOf ((symbolGroup records cutoff symbol).map (·.sentiment_score))
            < threshold)
    ∧ ∀ a ∈ check_sentiment_alerts threshold records cutoff now,
        a.severity = .MEDIUM ∧ a.alert_type = .SENTIMENT_ALERT := by
  constructor
  · constructor
    · rintro ⟨a, ha, hsym⟩
      obtain ⟨s, hs, hf⟩ := List.mem_filterMap.mp ha
      dsimp only at hf
      split_ifs at hf with hc
      · obtain rfl : mkSentimentAlert s
            (avgOf ((symbolGroup records cutoff s).map (·.sentiment_score)))
            (symbolGroup records cutoff s).length now = a := Option.some.inj hf
        have hs' : s = symbol := hsym
        subst hs'
        exact ⟨hc.2, hc.1⟩
    · rintro ⟨hcnt, havg⟩
      refine ⟨mkSentimentAlert symbol
        (avgOf ((symbolGroup records cutoff symbol).map (·.sentiment_score)))
        (symbolGroup records cutoff symbol).length now, ?_, rfl⟩
      apply List.mem_filterMap.mpr
      refine ⟨symbol, ?_, ?_⟩
      · have hpos : 0 < (symbolGroup records cutoff symbol).length := by omega
        obtain ⟨r, hr⟩ := List.exists_mem_of_length_pos hpos
        have hr' := List.mem_filter.mp hr
        apply List.mem_dedup.mpr
        exact List.mem_map.mpr ⟨r, hr'.1, by simpa using hr'.2⟩
      · dsimp only
        rw [if_pos ⟨havg, hcnt⟩]
  · intro a ha
    obtain ⟨s, _, hf⟩ := List.mem_filterMap.mp ha
    dsimp only at hf
    split_ifs at hf with hc
    · obtain rfl : mkSentimentAlert s
          (avgOf ((symbolGroup records cutoff s).map (·.sentiment_score)))
          (symbolGroup records cutoff s).length now = a := Option.some.inj hf
      exact ⟨rfl, rfl⟩

/-- Witness for C4: three below-threshold records trigger a sentiment
alert, two do not. -/
theorem c4_sentiment_scan_witness :
    (∃ a ∈ check_sentiment_alerts (-(3/10)) sentThree 0 20, a.symbol = "AAPL")
    ∧ ¬(∃ a ∈ check_sentiment_alerts (-(3/10)) sentTwo 0 20,
        a.symbol = "AAPL") := by
  constructor
  · refine ((c4_sentiment_scan (-(3/10)) sentThree 0 20 "AAPL").1).mpr ⟨?_, ?_⟩
    · decide
    · norm_num [symbolGroup, recentSentiment, sentThree, sentRecFx, avgOf]
  · intro hex
    have h := ((c4_sentiment_scan (-(3/10)) sentTwo 0 20 "AAPL").1).mp hex
    have h2 : (symbolGroup sentTwo 0 "AAPL").length = 2 := by decide
    omega

/-- With pairwise-distinct symbols, filtering a list for one member's
symbol returns exactly that member. -/
theorem filter_symbol_nodup (l : List PriceObservation) (r : PriceObservation)
    (hnd : (l.map (·.symbol)).Nodup) (hr : r ∈ l) :
    l.filter (fun x => x.symbol == r.symbol) = [r] := by
  induction l with
  | nil => cases hr
  | cons a t ih =>
    rw [List.map_cons, List.nodup_cons] at hnd
    rcases List.mem_cons.mp hr with rfl | hrt
    · rw [List.filter_cons_of_pos (by simp)]
      have ht : t.filter (fun x => x.symbol == r.symbol) = [] := by
        rw [List.filter_eq_nil_iff]
        intro x hx
        simp only [beq_iff_eq]
        intro hxx
        exact hnd.1 (List.mem_map.mpr ⟨x, hx, hxx⟩)
      rw [ht]
    · rw [List.filter_cons_of_neg ?_, ih hnd.2 hrt]
      simp only [beq_iff_eq]
      intro h
      exact hnd.1 (h ▸ List.mem_map.mpr ⟨r, hrt, rfl⟩)

/-- Claim C5: per symbol with distinct latest rows, the price scan emits
exactly one HIGH PRICE_ALERT when `|changePercent|` exceeds the threshold —
with "increased" wording for positive and "decreased" for negative moves —
and no alert otherwise. -/
theorem c5_price_scan (threshold : ℚ) (latest_prices : List PriceObservation)
    (hnd : (latest_prices.map (·.symbol)).Nodup) :
    ∀ r ∈ latest_prices,
      (|r.changePercent| > threshold →
        (check_price_alerts threshold latest_prices).filter
            (fun a => a.symbol == r.symbol) = [mkPriceAlert r]
        ∧ (mkPriceAlert r).severity = .HIGH
        ∧ (mkPriceAlert r).alert_type = .PRICE_ALERT
        ∧ (0 < r.changePercent →
            (mkPriceAlert r).message
              = r.symbol ++ " " ++ "increased" ++ " by "
                ++ qstr |r.changePercent| ++ "%")
        ∧ (r.changePercent < 0 →
            (mkPriceAlert r).message
              = r.symbol ++ " " ++ "decreased" ++ " by "
                ++ qstr |r.changePercent| ++ "%"))
      ∧ (¬(|r.changePercent| > threshold) →
        (check_price_alerts threshold latest_prices).filter
            (fun a => a.symbol == r.symbol) = []) := by
  intro r hr
  have key : (check_price_alerts threshold latest_prices).filter
      (fun a => a.symbol == r.symbol)
      = ((latest_prices.filter (fun x => x.symbol == r.symbol)).filter
          (fun x => decide (|x.changePercent| > threshold))).map mkPriceAlert := by
    unfold check_price_alerts
    rw [List.filter_map, List.filter_comm]
    rw [show ((fun a : Alert => a.symbol == r.symbol) ∘ mkPriceAlert)
        = (fun x : PriceObservation => x.symbol == r.symbol) from rfl]
  rw [filter_symbol_nodup latest_prices r hnd hr] at key
  constructor
  · intro hthr
    refine ⟨?_, rfl, rfl, ?_, ?_⟩
    · rw [key]
      simp [List.filter_cons, hthr]
    · intro hpos
      simp only [mkPriceAlert]
      rw [if_pos hpos]
    · intro hneg
      simp only [mkPriceAlert]
      rw [if_neg (not_lt.mpr hneg.le)]
  · intro hthr
    rw [key]
    simp [List.filter_cons, hthr]

/-- Witness for C5: a +6% mover against threshold 5 yields exactly the one
HIGH "increased" alert; a −6% mover yields "decreased"; a +2% mover yields
nothing. -/
theorem c5_price_scan_witness :
    |obsUp.changePercent| > 5
    ∧ (check_price_alerts 5 [obsUp, obsDown, obsFlat]).filter
        (fun a => a.symbol == obsUp.symbol) = [mkPriceAlert obsUp]
    ∧ (mkPriceAlert obsUp).severity = .HIGH
    ∧ (mkPriceAlert obsUp).message
        = obsUp.symbol ++ " " ++ "increased" ++ " by "
          ++ qstr |obsUp.changePercent| ++ "%"
    ∧ (mkPriceAlert obsDown).message
        = obsDown.symbol ++ " " ++ "decreased" ++ " by "
          ++ qstr |obsDown.changePercent| ++ "%"
    ∧ (check_price_alerts 5 [obsUp, obsDown, obsFlat]).filter
        (fun a => a.symbol == obsFlat.symbol) = [] := by
  have hnd : (([obsUp, obsDown, obsFlat].map (·.symbol)) : List String).Nodup := by
    decide
  have hup := c5_price_scan 5 [obsUp, obsDown, obsFlat] hnd obsUp (by simp)
  have hdown := c5_price_scan 5 [obsUp, obsDown, obsFlat] hnd obsDown (by simp)
  have hflat := c5_price_scan 5 [obsUp, obsDown, obsFlat] hnd obsFlat (by simp)
  have hu := hup.1 (by norm_num [obsUp])
  have hd := hdown.1 (by norm_num [obsDown])
  exact ⟨by norm_num [obsUp], hu.1, hu.2.1, hu.2.2.2.1 (by norm_num [obsUp]),
    hd.2.2.2.2 (by norm_num [obsDown]), hflat.2 (by norm_num [obsFlat])⟩

end FinTech
